import Mathlib

/-!
Verification development for the filesystem materializer `OutputBackendFile`
(`dirdiff/output_file.py`).

The Python class is shallowly embedded as pure Lean functions.  Paths
(Python `str`) are embedded as `List Char`; byte streams as `List Nat`;
the filesystem visible to the process as a flat association list from
absolute path to node.  Operating-system calls that can fail for reasons
outside the filesystem's visible state (privileges, disk errors, ...) are
driven by an injection environment `SysEnv` mapping each kind of system
call to an optional `OSErr`; `envOk` is the environment in which every
call succeeds.  Every embedded operation returns, besides its Python-level
result (`Except PyError Unit`), the resulting filesystem and the trace of
system calls it attempted, so that frame properties ("no chown was
attempted", "writes happened in 64 KiB chunks") are directly statable.
-/

deriving instance DecidableEq for Except

namespace Dirdiff

/-- Python string literal as a character list. -/
def pstr (s : String) : List Char := s.data

/-! ### stat-module constants (values from CPython's `stat` module) -/

def S_IFIFO : Nat := 4096
def S_IFCHR : Nat := 8192
def S_IFDIR : Nat := 16384
def S_IFBLK : Nat := 24576
def S_IFREG : Nat := 32768
def S_IFLNK : Nat := 40960
def S_IFSOCK : Nat := 49152

/-- `stat.S_IFMT(m)`: the file-type bits of a mode, i.e. `m & 0o170000`
(bits 12..15), written arithmetically. -/
def S_IFMT (m : Nat) : Nat := m % 65536 / 4096 * 4096

/-- `stat.S_IMODE(m)`: the permission bits of a mode, i.e. `m & 0o7777`. -/
def S_IMODE (m : Nat) : Nat := m % 4096

/-! ### open(2) flag constants (Linux values of the `os` module) -/

def O_WRONLY : Nat := 1
def O_CREAT : Nat := 64
def O_EXCL : Nat := 128
def O_TRUNC : Nat := 512

/-- Test whether flag bit `bit` (a power of two) is set in `flags`. -/
def hasFlag (flags bit : Nat) : Bool := flags / bit % 2 = 1

/-- The flags `write_file` passes to `os.open`: `os.O_WRONLY | os.O_CREAT`. -/
def write_file_open_flags : Nat := O_WRONLY + O_CREAT

/-! ### Python-side data model -/

/-- `StatInfo`: the metadata record attached to every write call. -/
structure StatInfo where
  mode : Nat
  uid : Nat
  gid : Nat
  size : Nat
  mtime : Nat
  rdev : Nat
  deriving DecidableEq

/-- Errors surfacing from an operation: either a raw OS error propagated
untranslated, or the repository's `DirDiffOutputException` carrying a
message. -/
inductive OSErr where
  | eexist
  | enoent
  | eacces
  | eperm
  | einval
  | eisdir
  | enospc
  deriving DecidableEq

/-- Rendering of an `OSErr` as it would appear interpolated into a Python
error message. -/
def osErrName : OSErr → List Char
  | .eexist => pstr "File exists"
  | .enoent => pstr "No such file or directory"
  | .eacces => pstr "Permission denied"
  | .eperm => pstr "Operation not permitted"
  | .einval => pstr "Invalid argument"
  | .eisdir => pstr "Is a directory"
  | .enospc => pstr "No space left on device"

/-- A Python-level exception escaping an operation. -/
inductive PyError where
  | osError (e : OSErr)
  | dirDiffOutput (msg : List Char)
  deriving DecidableEq

/-- The message of the `DirDiffOutputException` raised by `_fixup_owners`:
`f"failed to chown object: {exc}"`. -/
def chownMsg (e : OSErr) : List Char := pstr "failed to chown object: " ++ osErrName e

/-- The message of the `DirDiffOutputException` raised by `write_other`. -/
def unsupportedMsg : List Char := pstr "Unsupported file type"

/-! ### Filesystem model -/

/-- A filesystem node.  `special` covers device nodes, FIFOs and sockets
and stores the full mode (type and permission bits) plus the device
number, mirroring what `mknod` records. -/
inductive FSNode where
  | dir (perm : Nat)
  | file (perm : Nat) (content : List Nat)
  | symlink (target : List Char)
  | special (mode : Nat) (rdev : Nat)
  deriving DecidableEq

/-- The filesystem: a flat association from absolute path to node. -/
abbrev FS := List (List Char × FSNode)

/-- Look up the node stored at a path. -/
def fsGet (fs : FS) (p : List Char) : Option FSNode :=
  match fs with
  | [] => none
  | (q, n) :: rest => if q = p then some n else fsGet rest p

/-- Store a node at a path, replacing any previous node there. -/
def fsSet (fs : FS) (p : List Char) (n : FSNode) : FS :=
  match fs with
  | [] => [(p, n)]
  | (q, m) :: rest => if q = p then (p, n) :: rest else (q, m) :: fsSet rest p n

/-- System calls the backend attempts, with their arguments. -/
inductive Event where
  | mkdir (path : List Char) (mode : Nat)
  | openat (path : List Char) (flags : Nat) (mode : Nat)
  | write (fd : Int) (data : List Nat)
  | close
  | symlink (target : List Char) (path : List Char)
  | mknod (path : List Char) (mode : Nat) (rdev : Nat)
  | bind (path : List Char)
  | chmod (path : List Char) (mode : Nat)
  | lchown (path : List Char) (uid : Nat) (gid : Nat)
  | fchown (fd : Int) (uid : Nat) (gid : Nat)
  deriving DecidableEq

/-- Kinds of fallible system calls, used to inject OS-level failures. -/
inductive CallKind where
  | mkdirK
  | openK
  | writeK
  | symlinkK
  | mknodK
  | bindK
  | chmodK
  | lchownK
  | fchownK
  deriving DecidableEq

/-- Failure-injection environment: `some e` means the named call raises
`OSError` `e`; `none` means it succeeds (subject to the filesystem's own
semantic checks, such as "already exists"). -/
abbrev SysEnv := CallKind → Option OSErr

/-- The environment in which every system call succeeds. -/
def envOk : SysEnv := fun _ => none

/-! ### Path resolution: `os.path.join` and `os.path.normpath` (POSIX) -/

/-- Python `path.split("/")` on a character list. -/
def splitSlash : List Char → List (List Char)
  | [] => [[]]
  | c :: rest =>
    match splitSlash rest with
    | [] => [[]]
    | w :: ws => if c = '/' then [] :: w :: ws else (c :: w) :: ws

/-- Python `"/".join(comps)` on character lists. -/
def joinSlash : List (List Char) → List Char
  | [] => []
  | [w] => w
  | w :: ws => w ++ '/' :: joinSlash ws

/-- One step of CPython `posixpath.normpath`'s component loop. -/
def normStep (slashes : Nat) (acc : List (List Char)) (comp : List Char) :
    List (List Char) :=
  if comp = [] ∨ comp = ['.'] then acc
  else if comp ≠ ['.', '.'] ∨ (slashes = 0 ∧ acc = []) ∨
      (acc ≠ [] ∧ acc.getLast? = some ['.', '.']) then
    acc ++ [comp]
  else if acc ≠ [] then acc.dropLast
  else acc

/-- CPython `posixpath.normpath`. -/
def normpath (p : List Char) : List Char :=
  if p = [] then ['.']
  else
    let slashes : Nat :=
      if p.take 1 = ['/'] then
        if p.take 2 = ['/', '/'] ∧ ¬p.take 3 = ['/', '/', '/'] then 2 else 1
      else 0
    let comps := (splitSlash p).foldl (normStep slashes) []
    let res := List.replicate slashes '/' ++ joinSlash comps
    if res = [] then ['.'] else res

/-- CPython `posixpath.join` for two arguments. -/
def pathJoin (a b : List Char) : List Char :=
  if b.take 1 = ['/'] then b
  else if a = [] ∨ a.getLast? = some '/' then a ++ b
  else a ++ '/' :: b

/-- `OutputBackendFile._full_path`:
`os.path.normpath(os.path.join(self.base_path, path))`. -/
def full_path (base_path path : List Char) : List Char :=
  normpath (pathJoin base_path path)

/-! ### `_fixup_owners` -/

/-- `OutputBackendFile._fixup_owners(full_path, st, *, fd=-1)`: a no-op
unless ownership preservation is on; otherwise `os.lchown` by path when
`fd == -1`, else `os.fchown` on the handle; any `OSError` is re-raised as
`DirDiffOutputException(f"failed to chown object: {exc}")`. -/
def fixup_owners (preserve_owners : Bool) (env : SysEnv) (fp : List Char)
    (st : StatInfo) (fd : Int) : Except PyError Unit × List Event :=
  if !preserve_owners then (.ok (), [])
  else if fd = -1 then
    (match env .lchownK with
      | none => .ok ()
      | some e => .error (.dirDiffOutput (chownMsg e)),
     [Event.lchown fp st.uid st.gid])
  else
    (match env .fchownK with
      | none => .ok ()
      | some e => .error (.dirDiffOutput (chownMsg e)),
     [Event.fchown fd st.uid st.gid])

/-! ### write_dir -/

/-- `OutputBackendFile.write_dir`: `os.mkdir(full_path, mode=S_IMODE(st.mode))`
followed by `_fixup_owners(full_path, st)`. -/
def write_dir (preserve_owners : Bool) (env : SysEnv) (base_path : List Char)
    (fs : FS) (path : List Char) (st : StatInfo) :
    Except PyError Unit × FS × List Event :=
  let full := full_path base_path path
  let ev := [Event.mkdir full (S_IMODE st.mode)]
  match env .mkdirK with
  | some e => (.error (.osError e), fs, ev)
  | none =>
    match fsGet fs full with
    | some _ => (.error (.osError .eexist), fs, ev)
    | none =>
      let fs₁ := fsSet fs full (.dir (S_IMODE st.mode))
      let fix := fixup_owners preserve_owners env full st (-1)
      (fix.1, fs₁, ev ++ fix.2)

/-! ### write_file -/

/-- POSIX effect of `os.open(p, flags, mode)` on the filesystem: returns
the updated filesystem, the opened file's permission bits, and its content
as seen by the new descriptor (position 0).  Without `O_TRUNC` an existing
regular file's content is kept. -/
def openEffect (fs : FS) (p : List Char) (flags mode : Nat) :
    Except OSErr (FS × Nat × List Nat) :=
  match fsGet fs p with
  | some (.file perm c) =>
    if hasFlag flags O_EXCL then .error .eexist
    else if hasFlag flags O_TRUNC then .ok (fsSet fs p (.file perm []), perm, [])
    else .ok (fs, perm, c)
  | some (.dir _) => .error .eisdir
  | some _ => .error .eperm
  | none =>
    if hasFlag flags O_CREAT then
      .ok (fsSet fs p (.file (S_IMODE mode) []), S_IMODE mode, [])
    else .error .enoent

/-- Effect of `write(2)` at file offset `pos`: bytes are overwritten in
place and the file grows as needed. -/
def writeAt (content : List Nat) (pos : Nat) (data : List Nat) : List Nat :=
  content.take pos ++ data ++ content.drop (pos + data.length)

/-- The copy loop of `write_file`:
`while data := reader.read(2**16): fout.write(data)`.
The reader is represented by the list of chunks its successive
`read(2**16)` calls return (an exhausted list reads as `b""`); the loop
stops at the first falsy (empty) chunk.  Returns the OS error of a failed
write (if any), the final file content, and the trace of attempted
writes. -/
def copy_loop (env : SysEnv) (pos : Nat) (content : List Nat) :
    List (List Nat) → Option OSErr × List Nat × List Event
  | [] => (none, content, [])
  | data :: rest =>
    if data = [] then (none, content, [])
    else
      match env .writeK with
      | some e => (some e, content, [Event.write 0 data])
      | none =>
        let r := copy_loop env (pos + data.length) (writeAt content pos data) rest
        (r.1, r.2.1, Event.write 0 data :: r.2.2)

/-- `OutputBackendFile.write_file`: opens the resolved path with
`os.O_WRONLY | os.O_CREAT` and `mode=S_IMODE(st.mode)`, streams the
reader's chunks into it, applies the ownership fixup through the open
descriptor, and closes the file on every exit path. -/
def write_file (preserve_owners : Bool) (env : SysEnv) (base_path : List Char)
    (fs : FS) (path : List Char) (st : StatInfo) (reader : List (List Nat)) :
    Except PyError Unit × FS × List Event :=
  let full := full_path base_path path
  let evOpen := [Event.openat full write_file_open_flags (S_IMODE st.mode)]
  match env .openK with
  | some e => (.error (.osError e), fs, evOpen)
  | none =>
    match openEffect fs full write_file_open_flags st.mode with
    | .error e => (.error (.osError e), fs, evOpen)
    | .ok (fs₁, perm, content₀) =>
      let w := copy_loop env 0 content₀ reader
      let fs₂ := fsSet fs₁ full (.file perm w.2.1)
      match w.1 with
      | some e => (.error (.osError e), fs₂, evOpen ++ w.2.2 ++ [Event.close])
      | none =>
        let fix := fixup_owners preserve_owners env full st 0
        (fix.1, fs₂, evOpen ++ w.2.2 ++ fix.2 ++ [Event.close])

/-- Chunk list an `io.BytesIO`-style byte stream yields to successive
`read(2**16)` calls, computed with a structural fuel argument so that it
reduces definitionally (`readChunks` below supplies sufficient fuel). -/
def readChunksAux : Nat → List Nat → List (List Nat)
  | _, [] => []
  | 0, _ :: _ => []
  | fuel + 1, b :: rest =>
    (b :: rest).take 65536 :: readChunksAux fuel ((b :: rest).drop 65536)

/-- Chunk list a well-behaved byte stream of content `s` yields to
successive `read(2**16)` calls: 64 KiB chunks until exhaustion. -/
def readChunks (s : List Nat) : List (List Nat) := readChunksAux s.length s

/-! ### write_symlink -/

/-- `OutputBackendFile.write_symlink`: `os.symlink(linkname, full_path)`
followed by `_fixup_owners(full_path, st)` (path variant, `fd = -1`). -/
def write_symlink (preserve_owners : Bool) (env : SysEnv) (base_path : List Char)
    (fs : FS) (path : List Char) (st : StatInfo) (linkname : List Char) :
    Except PyError Unit × FS × List Event :=
  let full := full_path base_path path
  let ev := [Event.symlink linkname full]
  match env .symlinkK with
  | some e => (.error (.osError e), fs, ev)
  | none =>
    match fsGet fs full with
    | some _ => (.error (.osError .eexist), fs, ev)
    | none =>
      let fs₁ := fsSet fs full (.symlink linkname)
      let fix := fixup_owners preserve_owners env full st (-1)
      (fix.1, fs₁, ev ++ fix.2)

/-! ### write_other -/

/-- Effect of `os.chmod` on a node: replace its permission bits. -/
def setPerm : FSNode → Nat → FSNode
  | .dir _, m => .dir m
  | .file _ c, m => .file m c
  | .symlink t, _ => .symlink t
  | .special md rdev, m => .special (S_IFMT md + m) rdev

/-- `OutputBackendFile.write_other`: dispatch on the type bits of
`st.mode`.  Char/block devices and FIFOs go through
`os.mknod(full_path, mode=st.mode, device=st.rdev)`; sockets are created
by binding (then closing) an `AF_UNIX` datagram socket at the path and
then applying `os.chmod(full_path, S_IMODE(st.mode))`; any other type
raises `DirDiffOutputException("Unsupported file type")`.  On success the
ownership fixup runs by path. -/
def write_other (preserve_owners : Bool) (env : SysEnv) (base_path : List Char)
    (fs : FS) (path : List Char) (st : StatInfo) :
    Except PyError Unit × FS × List Event :=
  let full := full_path base_path path
  if S_IFMT st.mode = S_IFCHR ∨ S_IFMT st.mode = S_IFBLK ∨ S_IFMT st.mode = S_IFIFO then
    let ev := [Event.mknod full st.mode st.rdev]
    match env .mknodK with
    | some e => (.error (.osError e), fs, ev)
    | none =>
      match fsGet fs full with
      | some _ => (.error (.osError .eexist), fs, ev)
      | none =>
        let fs₁ := fsSet fs full (.special st.mode st.rdev)
        let fix := fixup_owners preserve_owners env full st (-1)
        (fix.1, fs₁, ev ++ fix.2)
  else if S_IFMT st.mode = S_IFSOCK then
    match env .bindK with
    | some e => (.error (.osError e), fs, [Event.bind full])
    | none =>
      match fsGet fs full with
      | some _ => (.error (.osError .eexist), fs, [Event.bind full])
      | none =>
        let fs₁ := fsSet fs full (.special (S_IFSOCK + 511) 0)
        let ev := [Event.bind full, Event.close, Event.chmod full (S_IMODE st.mode)]
        match env .chmodK with
        | some e => (.error (.osError e), fs₁, ev)
        | none =>
          let fs₂ := fsSet fs₁ full (setPerm (.special (S_IFSOCK + 511) 0) (S_IMODE st.mode))
          let fix := fixup_owners preserve_owners env full st (-1)
          (fix.1, fs₂, ev ++ fix.2)
  else
    (.error (.dirDiffOutput unsupportedMsg), fs, [])

/-! ### Device-number encoding

Modelled from the spec: `dirdiff.osshim`'s `makedev`, `major` and `minor`
are not among the provided source files; the spec describes `rdev` as an
"encoded (major, minor) device number pair" and the tests decode with
`major`/`minor` what `makedev` encoded.  The standard glibc 64-bit
encoding is used, written arithmetically. -/

/-- Modelled from the spec: `osshim.makedev` — glibc encoding: minor bits
0..7 at bits 0..7 and bits 8..31 at bits 20..43; major bits 0..11 at bits
8..19 and bits 12..31 at bits 44..63. -/
def dev_makedev (M m : Nat) : Nat :=
  m % 256 + M % 4096 * 256 + m / 256 * 1048576 + M / 4096 * 17592186044416

/-- Modelled from the spec: `osshim.major` — inverse of `dev_makedev` on
the major component. -/
def dev_major (d : Nat) : Nat := d / 256 % 4096 + d / 17592186044416 * 4096

/-- Modelled from the spec: `osshim.minor` — inverse of `dev_makedev` on
the minor component. -/
def dev_minor (d : Nat) : Nat := d % 256 + d / 1048576 % 16777216 * 256

/-! ### Trace and error predicates -/

/-- Whether an event is an ownership-change call (`lchown` or `fchown`). -/
def isChownEvent : Event → Bool
  | .lchown _ _ _ => true
  | .fchown _ _ _ => true
  | _ => false

/-- Whether an event is a permission-change call (`chmod`). -/
def isChmodEvent : Event → Bool
  | .chmod _ _ => true
  | _ => false

/-- Whether a result is the wrapped ownership-failure error. -/
def isChownFailure : Except PyError Unit → Bool
  | .error (.dirDiffOutput m) => List.isPrefixOf (pstr "failed to chown object: ") m
  | _ => false

/-- The write-data payloads of a trace, in order. -/
def writesOf (evs : List Event) : List (List Nat) :=
  evs.filterMap fun e =>
    match e with
    | .write _ d => some d
    | _ => none

/-- Whether an event is a `write` call. -/
def isWriteEvent : Event → Bool
  | .write _ _ => true
  | _ => false

/-- Whether a Python error is a `DirDiffOutputException` (as opposed to a
raw `OSError`). -/
def isDirDiffException : PyError → Bool
  | .dirDiffOutput _ => true
  | .osError _ => false

/-! ## Helper lemmas -/

theorem fsGet_fsSet_self (fs : FS) (p : List Char) (n : FSNode) :
    fsGet (fsSet fs p n) p = some n := by
  induction fs with
  | nil => simp [fsSet, fsGet]
  | cons hd tl ih =>
    obtain ⟨q, m⟩ := hd
    by_cases h : q = p
    · simp [fsSet, fsGet, h]
    · simp [fsSet, fsGet, h, ih]

theorem writeAt_at_end (c d : List Nat) : writeAt c c.length d = c ++ d := by
  simp [writeAt]

theorem copy_loop_envOk_eq (chunks : List (List Nat)) :
    ∀ content, copy_loop envOk content.length content chunks
      = (none, content ++ (chunks.takeWhile fun c => !c.isEmpty).flatten,
         (chunks.takeWhile fun c => !c.isEmpty).map (Event.write 0)) := by
  induction chunks with
  | nil => intro content; simp [copy_loop]
  | cons c rest ih =>
    intro content
    by_cases hc : c = []
    · subst hc
      simp [copy_loop, List.takeWhile_cons]
    · have hne : (!(List.isEmpty c)) = true := by
        simp [List.isEmpty_iff, hc]
      rw [copy_loop]
      have hstep := ih (content ++ c)
      rw [List.length_append] at hstep
      simp [hc, envOk, writeAt_at_end, List.takeWhile_cons, hne, hstep]

theorem copy_loop_events_are_writes (env : SysEnv) (chunks : List (List Nat)) :
    ∀ pos content, ((copy_loop env pos content chunks).2.2).all isWriteEvent = true := by
  induction chunks with
  | nil => intro pos content; simp [copy_loop]
  | cons c rest ih =>
    intro pos content
    by_cases hc : c = []
    · simp [copy_loop, hc]
    · cases hw : env .writeK with
      | some e => simp [copy_loop, hc, hw, isWriteEvent]
      | none => simp [copy_loop, hc, hw, isWriteEvent, ih]

theorem all_writes_no_chown (evs : List Event) (h : evs.all isWriteEvent = true) :
    evs.all (fun e => !isChownEvent e) = true := by
  rw [List.all_eq_true] at h ⊢
  intro e he
  have he2 := h e he
  cases e <;> simp_all [isWriteEvent, isChownEvent]

theorem readChunksAux_flatten :
    ∀ (fuel : Nat) (s : List Nat), s.length ≤ fuel →
      (readChunksAux fuel s).flatten = s := by
  intro fuel
  induction fuel with
  | zero =>
    intro s hs
    have : s = [] := List.eq_nil_of_length_eq_zero (by omega)
    simp [this, readChunksAux]
  | succ n ih =>
    intro s hs
    match s with
    | [] => simp [readChunksAux]
    | b :: rest =>
      simp only [readChunksAux, List.flatten_cons]
      rw [ih]
      · exact List.take_append_drop 65536 (b :: rest)
      · simp only [List.length_drop, List.length_cons]
        simp only [List.length_cons] at hs
        omega

theorem readChunksAux_all_good :
    ∀ (fuel : Nat) (s : List Nat),
      (readChunksAux fuel s).all (fun c => decide (c.length ≤ 65536) && !c.isEmpty) = true := by
  intro fuel
  induction fuel with
  | zero =>
    intro s
    cases s <;> simp [readChunksAux]
  | succ n ih =>
    intro s
    match s with
    | [] => simp [readChunksAux]
    | b :: rest =>
      simp only [readChunksAux, List.all_cons, ih, Bool.and_true]
      simp [List.isEmpty_iff, List.take_eq_nil_iff, List.length_take]

theorem readChunksAux_takeWhile :
    ∀ (fuel : Nat) (s : List Nat),
      (readChunksAux fuel s).takeWhile (fun c => !c.isEmpty) = readChunksAux fuel s := by
  intro fuel
  induction fuel with
  | zero =>
    intro s
    cases s <;> simp [readChunksAux]
  | succ n ih =>
    intro s
    match s with
    | [] => simp [readChunksAux]
    | b :: rest =>
      have hne : (!(List.isEmpty ((b :: rest).take 65536))) = true := by
        simp [List.isEmpty_iff, List.take_eq_nil_iff]
      simp only [readChunksAux, List.takeWhile_cons, hne, if_true]
      rw [ih]

theorem readChunks_flatten (s : List Nat) : (readChunks s).flatten = s :=
  readChunksAux_flatten s.length s (le_refl _)

theorem readChunks_takeWhile (s : List Nat) :
    (readChunks s).takeWhile (fun c => !c.isEmpty) = readChunks s :=
  readChunksAux_takeWhile s.length s

theorem readChunks_all_good (s : List Nat) :
    (readChunks s).all (fun c => decide (c.length ≤ 65536) && !c.isEmpty) = true :=
  readChunksAux_all_good s.length s

theorem writesOf_write_map (l : List (List Nat)) :
    writesOf (l.map (Event.write 0)) = l := by
  induction l with
  | nil => rfl
  | cons c rest ih => simp [writesOf, List.filterMap_cons] at ih ⊢; exact ih

theorem writesOf_append (a b : List Event) :
    writesOf (a ++ b) = writesOf a ++ writesOf b := by
  simp [writesOf, List.filterMap_append]

theorem writesOf_nil : writesOf [] = [] := rfl

theorem writesOf_openat (p : List Char) (f m : Nat) (rest : List Event) :
    writesOf (Event.openat p f m :: rest) = writesOf rest := by
  simp [writesOf, List.filterMap_cons]

theorem writesOf_close (rest : List Event) :
    writesOf (Event.close :: rest) = writesOf rest := by
  simp [writesOf, List.filterMap_cons]

theorem writesOf_fchown (fd : Int) (u g : Nat) (rest : List Event) :
    writesOf (Event.fchown fd u g :: rest) = writesOf rest := by
  simp [writesOf, List.filterMap_cons]

theorem writesOf_map_write (fd : Int) (l : List (List Nat)) :
    writesOf (l.map (Event.write fd)) = l := by
  induction l with
  | nil => rfl
  | cons c rest ih => simp [writesOf, List.filterMap_cons] at ih ⊢; exact ih

theorem fixup_owners_false (env : SysEnv) (fp : List Char) (st : StatInfo) (fd : Int) :
    fixup_owners false env fp st fd = (.ok (), []) := rfl

theorem isChownFailure_unsupported :
    isChownFailure (.error (.dirDiffOutput unsupportedMsg)) = false := by decide

theorem isChownFailure_ok : isChownFailure (.ok ()) = false := rfl

theorem isChownFailure_os (e : OSErr) :
    isChownFailure (.error (.osError e)) = false := rfl

theorem isChownEvent_mkdir (p : List Char) (m : Nat) :
    isChownEvent (.mkdir p m) = false := rfl

theorem isChownEvent_openat (p : List Char) (f m : Nat) :
    isChownEvent (.openat p f m) = false := rfl

theorem isChownEvent_close : isChownEvent .close = false := rfl

theorem isChownEvent_symlink (t p : List Char) :
    isChownEvent (.symlink t p) = false := rfl

theorem isChownEvent_mknod (p : List Char) (m r : Nat) :
    isChownEvent (.mknod p m r) = false := rfl

theorem isChownEvent_bind (p : List Char) : isChownEvent (.bind p) = false := rfl

theorem isChownEvent_chmod (p : List Char) (m : Nat) :
    isChownEvent (.chmod p m) = false := rfl

/-! ## Claim theorems -/

/-- Claim C1.  The claim states that `write_file` truncates an existing
regular file, so that after a successful call the content equals exactly
the supplied byte stream regardless of the previous file's length.  The
code opens with `O_WRONLY | O_CREAT` only — no `O_TRUNC` (and indeed no
`O_EXCL`, so an existing file is not rejected) — so writing the 2-byte
stream `b"xy"` over an existing 6-byte file `b"ABCDEF"` succeeds but
leaves `b"xyCDEF"` on disk, not `b"xy"`: the claimed truncation does not
happen and the round-trip fails on the code. -/
theorem write_file_missing_truncation :
    hasFlag write_file_open_flags O_EXCL = false ∧
    hasFlag write_file_open_flags O_TRUNC = false ∧
    (write_file false envOk (pstr "/out")
        [(pstr "/out/f", .file 420 [65, 66, 67, 68, 69, 70])]
        (pstr "f") ⟨33188, 0, 0, 2, 0, 0⟩ [[120, 121]]).1 = .ok () ∧
    fsGet (write_file false envOk (pstr "/out")
        [(pstr "/out/f", .file 420 [65, 66, 67, 68, 69, 70])]
        (pstr "f") ⟨33188, 0, 0, 2, 0, 0⟩ [[120, 121]]).2.1 (pstr "/out/f")
      = some (.file 420 [120, 121, 67, 68, 69, 70]) ∧
    ([120, 121, 67, 68, 69, 70] : List Nat) ≠ [120, 121] := by
  refine ⟨by decide, by decide, by decide, by decide, by decide⟩

/-- Claim C3.  `write_other` on a metadata whose mode's type bits are
outside char device, block device, FIFO and socket fails with the
"Unsupported file type" `DirDiffOutputException`, leaves the filesystem
untouched and attempts no system call at all (in particular no ownership
change). -/
theorem write_other_unsupported_type (preserve : Bool) (env : SysEnv)
    (base : List Char) (fs : FS) (path : List Char) (st : StatInfo)
    (h1 : S_IFMT st.mode ≠ S_IFCHR) (h2 : S_IFMT st.mode ≠ S_IFBLK)
    (h3 : S_IFMT st.mode ≠ S_IFIFO) (h4 : S_IFMT st.mode ≠ S_IFSOCK) :
    write_other preserve env base fs path st
      = (.error (.dirDiffOutput unsupportedMsg), fs, []) := by
  simp [write_other, h1, h2, h3, h4]

/-- Witness for C3: a regular-file mode (`0o100644`) is outside the four
supported type-bit values, and `write_other` rejects it unchanged. -/
theorem write_other_unsupported_type_witness :
    S_IFMT 33188 ≠ S_IFCHR ∧ S_IFMT 33188 ≠ S_IFBLK ∧
    S_IFMT 33188 ≠ S_IFIFO ∧ S_IFMT 33188 ≠ S_IFSOCK ∧
    write_other false envOk (pstr "/out") [] (pstr "f") ⟨33188, 0, 0, 0, 0, 0⟩
      = (.error (.dirDiffOutput unsupportedMsg), [], []) :=
  ⟨by decide, by decide, by decide, by decide,
   write_other_unsupported_type false envOk (pstr "/out") [] (pstr "f")
     ⟨33188, 0, 0, 0, 0, 0⟩ (by decide) (by decide) (by decide) (by decide)⟩

/-- Claim C10.  Both domain-specific error kinds — the ownership failure
raised by `_fixup_owners` and the unsupported-object-type failure raised
by `write_other` — are raised as the same exception class
(`DirDiffOutputException`, the `dirDiffOutput` constructor), and are
distinguishable only by their message text. -/
theorem same_exception_class_for_both_kinds :
    (fixup_owners true
        (fun k => if k = CallKind.lchownK then some OSErr.eperm else none)
        (pstr "/out/f") ⟨33188, 1, 2, 0, 0, 0⟩ (-1)).1
      = .error (.dirDiffOutput (chownMsg .eperm)) ∧
    (write_other false envOk (pstr "/out") [] (pstr "f") ⟨33188, 0, 0, 0, 0, 0⟩).1
      = .error (.dirDiffOutput unsupportedMsg) ∧
    isDirDiffException (.dirDiffOutput (chownMsg .eperm)) = true ∧
    isDirDiffException (.dirDiffOutput unsupportedMsg) = true ∧
    chownMsg .eperm ≠ unsupportedMsg := by
  refine ⟨by decide, by decide, by decide, by decide, by decide⟩

/-- Claim C5.  Every operation targets the path obtained by joining the
materialization root with the relative path and normalizing the result
(`_full_path` is exactly normalize-after-join, and the first system call
of each operation addresses that resolved path); the resolution is a pure
function with no existence or containment check, and a relative path with
enough `..` segments resolves outside the root (witness:
`"/root"` joined with `"../etc/passwd"` resolves to `"/etc/passwd"`,
which does not lie under `"/root"`). -/
theorem path_resolution_normalize_no_containment :
    (∀ base p, full_path base p = normpath (pathJoin base p)) ∧
    (∀ preserve env base fs path st,
        ((write_dir preserve env base fs path st).2.2).head?
          = some (.mkdir (full_path base path) (S_IMODE st.mode))) ∧
    (∀ preserve env base fs path st reader,
        ((write_file preserve env base fs path st reader).2.2).head?
          = some (.openat (full_path base path) write_file_open_flags (S_IMODE st.mode))) ∧
    (∀ preserve env base fs path st linkname,
        ((write_symlink preserve env base fs path st linkname).2.2).head?
          = some (.symlink linkname (full_path base path))) ∧
    full_path (pstr "/root") (pstr "../etc/passwd") = pstr "/etc/passwd" ∧
    List.isPrefixOf (pstr "/root") (full_path (pstr "/root") (pstr "../etc/passwd")) = false := by
  refine ⟨fun base p => rfl, ?_, ?_, ?_, by decide, by decide⟩
  · intro preserve env base fs path st
    cases hm : env CallKind.mkdirK <;> simp [write_dir, hm]
    cases hg : fsGet fs (full_path base path) <;> simp [hg]
  · intro preserve env base fs path st reader
    cases ho : env CallKind.openK <;> simp [write_file, ho]
    cases he : openEffect fs (full_path base path) write_file_open_flags st.mode with
    | error e => simp [he]
    | ok t =>
      obtain ⟨fs₁, perm, c₀⟩ := t
      simp only [he]
      cases hw : (copy_loop env 0 c₀ reader).1 <;> simp [hw]
  · intro preserve env base fs path st linkname
    cases hs : env CallKind.symlinkK <;> simp [write_symlink, hs]
    cases hg : fsGet fs (full_path base path) <;> simp [hg]

/-- Claim C7.  `write_other` dispatches on the type bits of `st.mode`:
char/block devices become a `mknod` node carrying the full mode and the
`rdev` device number verbatim (so decoding the stored device number with
the spec-modelled `major`/`minor` recovers the pair passed to `makedev`);
a FIFO mode produces a named-pipe node the same way; a socket mode binds
then releases a datagram socket at the path and then applies the
permission mask with an explicit `chmod`, in that order. -/
theorem write_other_dispatch_semantics :
    (∀ (preserve : Bool) (base : List Char) (fs : FS) (path : List Char) (st : StatInfo),
        S_IFMT st.mode = S_IFCHR ∨ S_IFMT st.mode = S_IFBLK →
        fsGet fs (full_path base path) = none →
        (write_other preserve envOk base fs path st).1 = .ok () ∧
        fsGet (write_other preserve envOk base fs path st).2.1 (full_path base path)
          = some (.special st.mode st.rdev)) ∧
    (∀ M m : Nat, M < 4294967296 → m < 4294967296 →
        dev_major (dev_makedev M m) = M ∧ dev_minor (dev_makedev M m) = m) ∧
    (∀ (preserve : Bool) (base : List Char) (fs : FS) (path : List Char) (st : StatInfo),
        S_IFMT st.mode = S_IFIFO →
        fsGet fs (full_path base path) = none →
        (write_other preserve envOk base fs path st).1 = .ok () ∧
        fsGet (write_other preserve envOk base fs path st).2.1 (full_path base path)
          = some (.special st.mode st.rdev)) ∧
    (∀ (preserve : Bool) (base : List Char) (fs : FS) (path : List Char) (st : StatInfo),
        S_IFMT st.mode = S_IFSOCK →
        fsGet fs (full_path base path) = none →
        (write_other preserve envOk base fs path st).1 = .ok () ∧
        fsGet (write_other preserve envOk base fs path st).2.1 (full_path base path)
          = some (.special (S_IFSOCK + S_IMODE st.mode) 0) ∧
        ((write_other preserve envOk base fs path st).2.2).take 3
          = [.bind (full_path base path), .close,
             .chmod (full_path base path) (S_IMODE st.mode)]) := by
  refine ⟨?_, ?_, ?_, ?_⟩
  · intro preserve base fs path st h hg
    rcases h with h | h <;>
      cases preserve <;>
        simp [write_other, h, S_IFCHR, S_IFBLK, S_IFIFO, envOk, hg,
          fixup_owners, fsGet_fsSet_self]
  · intro M m hM hm
    unfold dev_makedev dev_major dev_minor
    constructor <;> omega
  · intro preserve base fs path st h hg
    cases preserve <;>
      simp [write_other, h, S_IFCHR, S_IFBLK, S_IFIFO, envOk, hg,
        fixup_owners, fsGet_fsSet_self]
  · intro preserve base fs path st h hg
    have hnorm : S_IFMT (S_IFSOCK + 511) = S_IFSOCK := by decide
    cases preserve <;>
      refine ⟨?_, ?_, ?_⟩ <;>
        simp [write_other, h, S_IFCHR, S_IFBLK, S_IFIFO, S_IFSOCK, envOk, hg,
          fixup_owners, fsGet_fsSet_self, setPerm, hnorm] <;> decide

/-- Witness for C7: a character device with mode `0o20600` and device pair
(12, 7), a FIFO with mode `0o10644`, and a socket with mode `0o140600`,
each created in an empty tree. -/
theorem write_other_dispatch_semantics_witness :
    ((write_other false envOk (pstr "/o") [] (pstr "d")
        ⟨8576, 0, 0, 0, 0, dev_makedev 12 7⟩).1 = .ok () ∧
      fsGet (write_other false envOk (pstr "/o") [] (pstr "d")
        ⟨8576, 0, 0, 0, 0, dev_makedev 12 7⟩).2.1 (full_path (pstr "/o") (pstr "d"))
        = some (.special 8576 (dev_makedev 12 7))) ∧
    (dev_major (dev_makedev 12 7) = 12 ∧ dev_minor (dev_makedev 12 7) = 7) ∧
    ((write_other false envOk (pstr "/o") [] (pstr "p") ⟨4516, 0, 0, 0, 0, 0⟩).1 = .ok () ∧
      fsGet (write_other false envOk (pstr "/o") [] (pstr "p")
        ⟨4516, 0, 0, 0, 0, 0⟩).2.1 (full_path (pstr "/o") (pstr "p"))
        = some (.special 4516 0)) ∧
    ((write_other true envOk (pstr "/o") [] (pstr "s") ⟨49536, 3, 4, 0, 0, 0⟩).1 = .ok () ∧
      fsGet (write_other true envOk (pstr "/o") [] (pstr "s")
        ⟨49536, 3, 4, 0, 0, 0⟩).2.1 (full_path (pstr "/o") (pstr "s"))
        = some (.special (S_IFSOCK + S_IMODE 49536) 0) ∧
      ((write_other true envOk (pstr "/o") [] (pstr "s") ⟨49536, 3, 4, 0, 0, 0⟩).2.2).take 3
        = [.bind (full_path (pstr "/o") (pstr "s")), .close,
           .chmod (full_path (pstr "/o") (pstr "s")) (S_IMODE 49536)]) :=
  ⟨write_other_dispatch_semantics.1 false (pstr "/o") [] (pstr "d")
      ⟨8576, 0, 0, 0, 0, dev_makedev 12 7⟩ (by decide) (by decide),
   write_other_dispatch_semantics.2.1 12 7 (by decide) (by decide),
   write_other_dispatch_semantics.2.2.1 false (pstr "/o") [] (pstr "p")
      ⟨4516, 0, 0, 0, 0, 0⟩ (by decide) (by decide),
   write_other_dispatch_semantics.2.2.2 true (pstr "/o") [] (pstr "s")
      ⟨49536, 3, 4, 0, 0, 0⟩ (by decide) (by decide)⟩

/-- Claim C2.  On a path where no object exists, `write_file` fed a
well-behaved byte stream (`readChunks stream`, the responses of an
`io.BytesIO` to repeated `read(2**16)` calls) succeeds and stores exactly
the stream, for every stream length; the data crosses the loop as the
`readChunks` chunk sequence — each write call carries at most 64 KiB and
their concatenation is the whole stream — i.e. a streaming copy, not one
whole-buffer write. -/
theorem write_file_fresh_roundtrip_streaming (preserve : Bool) (base : List Char)
    (fs : FS) (path : List Char) (st : StatInfo) (stream : List Nat)
    (h : fsGet fs (full_path base path) = none) :
    (write_file preserve envOk base fs path st (readChunks stream)).1 = .ok () ∧
    fsGet (write_file preserve envOk base fs path st (readChunks stream)).2.1
        (full_path base path) = some (.file (S_IMODE st.mode) stream) ∧
    writesOf (write_file preserve envOk base fs path st (readChunks stream)).2.2
      = readChunks stream ∧
    (readChunks stream).flatten = stream ∧
    (readChunks stream).all (fun c => decide (c.length ≤ 65536) && !c.isEmpty) = true := by
  have hcreat : hasFlag write_file_open_flags O_CREAT = true := by decide
  have hexcl : hasFlag write_file_open_flags O_EXCL = false := by decide
  have htrunc : hasFlag write_file_open_flags O_TRUNC = false := by decide
  have hcl := copy_loop_envOk_eq (readChunks stream) []
  simp only [List.length_nil, List.nil_append, readChunks_takeWhile,
    readChunks_flatten] at hcl
  refine ⟨?_, ?_, ?_, readChunks_flatten stream, readChunks_all_good stream⟩
  · cases preserve <;>
      simp [write_file, envOk, openEffect, h, hcreat, hexcl, htrunc, hcl,
        fixup_owners, fsGet_fsSet_self]
  · cases preserve <;>
      simp [write_file, envOk, openEffect, h, hcreat, hexcl, htrunc, hcl,
        fixup_owners, fsGet_fsSet_self]
  · cases preserve <;>
      simp only [write_file, envOk, openEffect, h, hcreat, hexcl, htrunc, hcl,
        fixup_owners, Bool.not_false, Bool.not_true, if_true, if_false,
        Bool.false_eq_true, ite_false, ite_true, writesOf_append,
        writesOf_map_write, writesOf_nil, writesOf_openat, writesOf_close,
        writesOf_fchown, List.singleton_append, List.append_nil,
        List.nil_append] <;>
      simp [writesOf_fchown, writesOf_nil, writesOf_append, writesOf_close,
        writesOf_map_write]

/-- Witness for C2: writing the three-byte stream `[10, 20, 30]` at a
fresh path with ownership preservation on. -/
theorem write_file_fresh_roundtrip_streaming_witness :
    fsGet ([] : FS) (full_path (pstr "/out") (pstr "f")) = none ∧
    ((write_file true envOk (pstr "/out") [] (pstr "f") ⟨33188, 1234, 4567, 3, 0, 0⟩
        (readChunks [10, 20, 30])).1 = .ok () ∧
      fsGet (write_file true envOk (pstr "/out") [] (pstr "f")
          ⟨33188, 1234, 4567, 3, 0, 0⟩ (readChunks [10, 20, 30])).2.1
          (full_path (pstr "/out") (pstr "f"))
        = some (.file (S_IMODE 33188) [10, 20, 30]) ∧
      writesOf (write_file true envOk (pstr "/out") [] (pstr "f")
          ⟨33188, 1234, 4567, 3, 0, 0⟩ (readChunks [10, 20, 30])).2.2
        = readChunks [10, 20, 30] ∧
      (readChunks [10, 20, 30]).flatten = [10, 20, 30] ∧
      (readChunks [10, 20, 30]).all
        (fun c => decide (c.length ≤ 65536) && !c.isEmpty) = true) :=
  ⟨rfl, write_file_fresh_roundtrip_streaming true (pstr "/out") [] (pstr "f")
    ⟨33188, 1234, 4567, 3, 0, 0⟩ [10, 20, 30] rfl⟩

/-- Claim C9.  The copy loop of `write_file` stops at the first read that
returns an empty chunk: on a fresh path the stored content is the
concatenation of the reader's chunks up to (excluding) the first empty
one, so a reader that returns an empty chunk before its data is exhausted
loses everything after it — the round-trip holds only for readers that
return an empty chunk exclusively at end-of-stream (concretely, chunks
`[[1,2], [], [3]]` store `[1,2]`, not `[1,2,3]`). -/
theorem copy_stops_at_first_empty_chunk :
    (∀ (preserve : Bool) (base : List Char) (fs : FS) (path : List Char)
        (st : StatInfo) (chunks : List (List Nat)),
        fsGet fs (full_path base path) = none →
        fsGet (write_file preserve envOk base fs path st chunks).2.1 (full_path base path)
          = some (.file (S_IMODE st.mode)
              ((chunks.takeWhile fun c => !c.isEmpty).flatten))) ∧
    fsGet (write_file false envOk (pstr "/o") [] (pstr "f")
        ⟨33188, 0, 0, 3, 0, 0⟩ [[1, 2], [], [3]]).2.1 (full_path (pstr "/o") (pstr "f"))
      = some (.file 420 [1, 2]) ∧
    ([[1, 2], [], [3]] : List (List Nat)).flatten = [1, 2, 3] ∧
    ([1, 2] : List Nat) ≠ [1, 2, 3] := by
  have hcreat : hasFlag write_file_open_flags O_CREAT = true := by decide
  have hexcl : hasFlag write_file_open_flags O_EXCL = false := by decide
  have htrunc : hasFlag write_file_open_flags O_TRUNC = false := by decide
  refine ⟨?_, by decide, by decide, by decide⟩
  intro preserve base fs path st chunks h
  have hcl := copy_loop_envOk_eq chunks []
  simp only [List.length_nil, List.nil_append] at hcl
  cases preserve <;>
    simp [write_file, envOk, openEffect, h, hcreat, hexcl, htrunc, hcl,
      fixup_owners, fsGet_fsSet_self]

/-- Witness for C9: a reader whose second chunk is empty, written at a
fresh path: only the first chunk lands on disk. -/
theorem copy_stops_at_first_empty_chunk_witness :
    fsGet ([] : FS) (full_path (pstr "/w")  (pstr "g")) = none ∧
    fsGet (write_file true envOk (pstr "/w") [] (pstr "g")
        ⟨33261, 5, 6, 9, 0, 0⟩ [[9, 9], [], [8]]).2.1 (full_path (pstr "/w") (pstr "g"))
      = some (.file (S_IMODE 33261)
          (([[9, 9], [], [8]].takeWhile fun c : List Nat => !c.isEmpty).flatten)) :=
  ⟨rfl, copy_stops_at_first_empty_chunk.1 true (pstr "/w") [] (pstr "g")
    ⟨33261, 5, 6, 9, 0, 0⟩ [[9, 9], [], [8]] rfl⟩

/-- Claim C6.  `write_symlink` stores the caller-supplied target string
verbatim in the created link node (no resolution, no validation —
including targets with `..` segments), never issues a `chmod` for the
link's permission bits, and when ownership preservation is enabled the
ownership change is the single path-based no-follow call `lchown` (not
`fchown`, not a following variant). -/
theorem write_symlink_verbatim_no_chmod (preserve : Bool) (env : SysEnv)
    (base : List Char) (fs : FS) (path : List Char) (st : StatInfo)
    (linkname : List Char)
    (hs : env CallKind.symlinkK = none)
    (hg : fsGet fs (full_path base path) = none) :
    fsGet (write_symlink preserve env base fs path st linkname).2.1 (full_path base path)
      = some (.symlink linkname) ∧
    ((write_symlink preserve env base fs path st linkname).2.2).all
      (fun e => !isChmodEvent e) = true ∧
    (write_symlink true env base fs path st linkname).2.2
      = [.symlink linkname (full_path base path),
         .lchown (full_path base path) st.uid st.gid] := by
  refine ⟨?_, ?_, ?_⟩ <;>
    cases preserve <;>
      simp [write_symlink, hs, hg, fixup_owners, fsGet_fsSet_self, isChmodEvent]

/-- Witness for C6: a link whose target `"../../x"` contains `..`
segments and does not exist. -/
theorem write_symlink_verbatim_no_chmod_witness :
    (envOk CallKind.symlinkK = none) ∧
    fsGet ([] : FS) (full_path (pstr "/r") (pstr "l")) = none ∧
    (fsGet (write_symlink true envOk (pstr "/r") [] (pstr "l")
        ⟨41471, 7, 8, 0, 0, 0⟩ (pstr "../../x")).2.1 (full_path (pstr "/r") (pstr "l"))
      = some (.symlink (pstr "../../x")) ∧
    ((write_symlink true envOk (pstr "/r") [] (pstr "l")
        ⟨41471, 7, 8, 0, 0, 0⟩ (pstr "../../x")).2.2).all
      (fun e => !isChmodEvent e) = true ∧
    (write_symlink true envOk (pstr "/r") [] (pstr "l")
        ⟨41471, 7, 8, 0, 0, 0⟩ (pstr "../../x")).2.2
      = [.symlink (pstr "../../x") (full_path (pstr "/r") (pstr "l")),
         .lchown (full_path (pstr "/r") (pstr "l")) 7 8]) :=
  ⟨rfl, rfl, write_symlink_verbatim_no_chmod true envOk (pstr "/r") []
    (pstr "l") ⟨41471, 7, 8, 0, 0, 0⟩ (pstr "../../x") rfl rfl⟩

/-- Claim C4.  `_fixup_owners` is the only place that wraps a failure:
every `OSError` of the ownership change (path or handle variant) is
translated into the single `DirDiffOutputException` kind carrying the
underlying cause, and `_fixup_owners` never surfaces a raw `OSError`;
while the operating-system failures of every other call — `mkdir` in
`CreateDirectory`, `open` and `write` in `WriteRegularFile`, `symlink` in
`CreateSymlink`, `mknod`, `bind` and `chmod` in `CreateSpecial` —
propagate to the caller as the raw, untranslated `OSError`. -/
theorem error_translation_asymmetry :
    (∀ (env : SysEnv) (fp : List Char) (st : StatInfo) (fd : Int) (e : OSErr),
        (if fd = -1 then env .lchownK else env .fchownK) = some e →
        (fixup_owners true env fp st fd).1
          = .error (.dirDiffOutput (chownMsg e))) ∧
    (∀ (preserve : Bool) (env : SysEnv) (fp : List Char) (st : StatInfo)
        (fd : Int) (e : OSErr),
        (fixup_owners preserve env fp st fd).1 ≠ .error (.osError e)) ∧
    (∀ (preserve : Bool) (env : SysEnv) (base : List Char) (fs : FS)
        (path : List Char) (st : StatInfo) (e : OSErr),
        env .mkdirK = some e →
        (write_dir preserve env base fs path st).1 = .error (.osError e)) ∧
    (∀ (preserve : Bool) (env : SysEnv) (base : List Char) (fs : FS)
        (path : List Char) (st : StatInfo) (reader : List (List Nat)) (e : OSErr),
        env .openK = some e →
        (write_file preserve env base fs path st reader).1 = .error (.osError e)) ∧
    (∀ (preserve : Bool) (env : SysEnv) (base : List Char) (fs : FS)
        (path : List Char) (st : StatInfo) (c : List Nat)
        (rest : List (List Nat)) (e : OSErr),
        env .openK = none → env .writeK = some e → c ≠ [] →
        fsGet fs (full_path base path) = none →
        (write_file preserve env base fs path st (c :: rest)).1
          = .error (.osError e)) ∧
    (∀ (preserve : Bool) (env : SysEnv) (base : List Char) (fs : FS)
        (path : List Char) (st : StatInfo) (linkname : List Char) (e : OSErr),
        env .symlinkK = some e →
        (write_symlink preserve env base fs path st linkname).1
          = .error (.osError e)) ∧
    (∀ (preserve : Bool) (env : SysEnv) (base : List Char) (fs : FS)
        (path : List Char) (st : StatInfo) (e : OSErr),
        S_IFMT st.mode = S_IFCHR ∨ S_IFMT st.mode = S_IFBLK ∨
          S_IFMT st.mode = S_IFIFO →
        env .mknodK = some e →
        (write_other preserve env base fs path st).1 = .error (.osError e)) ∧
    (∀ (preserve : Bool) (env : SysEnv) (base : List Char) (fs : FS)
        (path : List Char) (st : StatInfo) (e : OSErr),
        S_IFMT st.mode = S_IFSOCK →
        env .bindK = some e →
        (write_other preserve env base fs path st).1 = .error (.osError e)) ∧
    (∀ (preserve : Bool) (env : SysEnv) (base : List Char) (fs : FS)
        (path : List Char) (st : StatInfo) (e : OSErr),
        S_IFMT st.mode = S_IFSOCK → env .bindK = none → env .chmodK = some e →
        fsGet fs (full_path base path) = none →
        (write_other preserve env base fs path st).1 = .error (.osError e)) := by
  have hcreat : hasFlag write_file_open_flags O_CREAT = true := by decide
  have hexcl : hasFlag write_file_open_flags O_EXCL = false := by decide
  have htrunc : hasFlag write_file_open_flags O_TRUNC = false := by decide
  refine ⟨?_, ?_, ?_, ?_, ?_, ?_, ?_, ?_, ?_⟩
  · intro env fp st fd e h
    by_cases hfd : fd = -1 <;> simp [hfd] at h <;> simp [fixup_owners, hfd, h]
  · intro preserve env fp st fd e
    cases preserve
    · simp [fixup_owners]
    · by_cases hfd : fd = -1
      · cases hl : env CallKind.lchownK <;> simp [fixup_owners, hfd, hl]
      · cases hl : env CallKind.fchownK <;> simp [fixup_owners, hfd, hl]
  · intro preserve env base fs path st e h
    simp [write_dir, h]
  · intro preserve env base fs path st reader e h
    simp [write_file, h]
  · intro preserve env base fs path st c rest e ho hw hc hg
    simp [write_file, ho, hw, hc, hg, openEffect, hcreat, hexcl, htrunc, copy_loop]
  · intro preserve env base fs path st linkname e h
    simp [write_symlink, h]
  · intro preserve env base fs path st e h hm
    rcases h with h | h | h <;>
      simp [write_other, h, S_IFCHR, S_IFBLK, S_IFIFO, hm]
  · intro preserve env base fs path st e h hb
    simp [write_other, h, S_IFCHR, S_IFBLK, S_IFIFO, S_IFSOCK, hb]
  · intro preserve env base fs path st e h hb hc hg
    simp [write_other, h, S_IFCHR, S_IFBLK, S_IFIFO, S_IFSOCK, hb, hc, hg]

/-- Witness for C4: each conjunct applied at a concrete input, with the
relevant system call made to fail by a concrete injection environment. -/
theorem error_translation_asymmetry_witness :
    (fixup_owners true
        (fun k => if k = CallKind.lchownK then some OSErr.eperm else none)
        (pstr "/o/f") ⟨33188, 1, 2, 0, 0, 0⟩ (-1)).1
      = .error (.dirDiffOutput (chownMsg .eperm)) ∧
    (fixup_owners false envOk (pstr "/o/f") ⟨33188, 1, 2, 0, 0, 0⟩ (-1)).1
      ≠ .error (.osError .eperm) ∧
    (write_dir false
        (fun k => if k = CallKind.mkdirK then some OSErr.eacces else none)
        (pstr "/o") [] (pstr "d") ⟨16877, 0, 0, 0, 0, 0⟩).1
      = .error (.osError .eacces) ∧
    (write_file false
        (fun k => if k = CallKind.openK then some OSErr.eacces else none)
        (pstr "/o") [] (pstr "f") ⟨33188, 0, 0, 0, 0, 0⟩ [[7]]).1
      = .error (.osError .eacces) ∧
    (write_file false
        (fun k => if k = CallKind.writeK then some OSErr.enospc else none)
        (pstr "/o") [] (pstr "f") ⟨33188, 0, 0, 0, 0, 0⟩ [[7]]).1
      = .error (.osError .enospc) ∧
    (write_symlink false
        (fun k => if k = CallKind.symlinkK then some OSErr.eexist else none)
        (pstr "/o") [] (pstr "l") ⟨41471, 0, 0, 0, 0, 0⟩ (pstr "t")).1
      = .error (.osError .eexist) ∧
    (write_other false
        (fun k => if k = CallKind.mknodK then some OSErr.eacces else none)
        (pstr "/o") [] (pstr "d") ⟨8576, 0, 0, 0, 0, 0⟩).1
      = .error (.osError .eacces) ∧
    (write_other false
        (fun k => if k = CallKind.bindK then some OSErr.eacces else none)
        (pstr "/o") [] (pstr "s") ⟨49536, 0, 0, 0, 0, 0⟩).1
      = .error (.osError .eacces) ∧
    (write_other false
        (fun k => if k = CallKind.chmodK then some OSErr.eperm else none)
        (pstr "/o") [] (pstr "s") ⟨49536, 0, 0, 0, 0, 0⟩).1
      = .error (.osError .eperm) :=
  ⟨error_translation_asymmetry.1 _ (pstr "/o/f") ⟨33188, 1, 2, 0, 0, 0⟩ (-1)
      OSErr.eperm (by decide),
   error_translation_asymmetry.2.1 false envOk (pstr "/o/f")
      ⟨33188, 1, 2, 0, 0, 0⟩ (-1) OSErr.eperm,
   error_translation_asymmetry.2.2.1 false _ (pstr "/o") [] (pstr "d")
      ⟨16877, 0, 0, 0, 0, 0⟩ OSErr.eacces (by decide),
   error_translation_asymmetry.2.2.2.1 false _ (pstr "/o") [] (pstr "f")
      ⟨33188, 0, 0, 0, 0, 0⟩ [[7]] OSErr.eacces (by decide),
   error_translation_asymmetry.2.2.2.2.1 false _ (pstr "/o") [] (pstr "f")
      ⟨33188, 0, 0, 0, 0, 0⟩ [7] [] OSErr.enospc (by decide) (by decide)
      (by decide) (by decide),
   error_translation_asymmetry.2.2.2.2.2.1 false _ (pstr "/o") [] (pstr "l")
      ⟨41471, 0, 0, 0, 0, 0⟩ (pstr "t") OSErr.eexist (by decide),
   error_translation_asymmetry.2.2.2.2.2.2.1 false _ (pstr "/o") [] (pstr "d")
      ⟨8576, 0, 0, 0, 0, 0⟩ OSErr.eacces (by decide) (by decide),
   error_translation_asymmetry.2.2.2.2.2.2.2.1 false _ (pstr "/o") [] (pstr "s")
      ⟨49536, 0, 0, 0, 0, 0⟩ OSErr.eacces (by decide) (by decide),
   error_translation_asymmetry.2.2.2.2.2.2.2.2 false _ (pstr "/o") [] (pstr "s")
      ⟨49536, 0, 0, 0, 0, 0⟩ OSErr.eperm (by decide) (by decide) (by decide)
      (by decide)⟩

/-- Claim C8.  With ownership preservation disabled, `_fixup_owners`
returns immediately, so across all four operations no ownership-change
call (`lchown` or `fchown`) ever appears in the attempted-system-call
trace, and the wrapped ownership-failure error can never be the result —
for every injection environment and every input. -/
theorem no_chown_when_preservation_disabled :
    (∀ (env : SysEnv) (fp : List Char) (st : StatInfo) (fd : Int),
        fixup_owners false env fp st fd = (.ok (), [])) ∧
    (∀ (env : SysEnv) (base : List Char) (fs : FS) (path : List Char) (st : StatInfo),
        ((write_dir false env base fs path st).2.2).all
          (fun e => !isChownEvent e) = true ∧
        isChownFailure (write_dir false env base fs path st).1 = false) ∧
    (∀ (env : SysEnv) (base : List Char) (fs : FS) (path : List Char)
        (st : StatInfo) (reader : List (List Nat)),
        ((write_file false env base fs path st reader).2.2).all
          (fun e => !isChownEvent e) = true ∧
        isChownFailure (write_file false env base fs path st reader).1 = false) ∧
    (∀ (env : SysEnv) (base : List Char) (fs : FS) (path : List Char)
        (st : StatInfo) (linkname : List Char),
        ((write_symlink false env base fs path st linkname).2.2).all
          (fun e => !isChownEvent e) = true ∧
        isChownFailure (write_symlink false env base fs path st linkname).1 = false) ∧
    (∀ (env : SysEnv) (base : List Char) (fs : FS) (path : List Char) (st : StatInfo),
        ((write_other false env base fs path st).2.2).all
          (fun e => !isChownEvent e) = true ∧
        isChownFailure (write_other false env base fs path st).1 = false) := by
  refine ⟨fun env fp st fd => fixup_owners_false env fp st fd, ?_, ?_, ?_, ?_⟩
  · intro env base fs path st
    cases hm : env CallKind.mkdirK
    · cases hg : fsGet fs (full_path base path) <;>
        simp [write_dir, hm, hg, fixup_owners_false, isChownEvent_mkdir,
          isChownFailure_ok, isChownFailure_os]
    · simp [write_dir, hm, isChownEvent_mkdir, isChownFailure_os]
  · intro env base fs path st reader
    cases ho : env CallKind.openK with
    | some e =>
      simp [write_file, ho, isChownEvent_openat, isChownFailure_os]
    | none =>
      cases he : openEffect fs (full_path base path) write_file_open_flags st.mode with
      | error e =>
        simp [write_file, ho, he, isChownEvent_openat, isChownFailure_os]
      | ok t =>
        obtain ⟨fs₁, perm, c₀⟩ := t
        have hw := copy_loop_events_are_writes env reader 0 c₀
        have hw2 := all_writes_no_chown _ hw
        cases hwe : (copy_loop env 0 c₀ reader).1 with
        | some e =>
          simp [write_file, ho, he, hwe, isChownFailure_os, List.all_append,
            hw2, isChownEvent_openat, isChownEvent_close]
        | none =>
          simp [write_file, ho, he, hwe, fixup_owners_false, isChownFailure_ok,
            List.all_append, hw2, isChownEvent_openat, isChownEvent_close]
  · intro env base fs path st linkname
    cases hs : env CallKind.symlinkK
    · cases hg : fsGet fs (full_path base path) <;>
        simp [write_symlink, hs, hg, fixup_owners_false, isChownEvent_symlink,
          isChownFailure_ok, isChownFailure_os]
    · simp [write_symlink, hs, isChownEvent_symlink, isChownFailure_os]
  · intro env base fs path st
    by_cases hA : S_IFMT st.mode = S_IFCHR ∨ S_IFMT st.mode = S_IFBLK ∨
        S_IFMT st.mode = S_IFIFO
    · cases hm : env CallKind.mknodK
      · cases hg : fsGet fs (full_path base path) <;>
          simp [write_other, hA, hm, hg, fixup_owners_false, isChownEvent_mknod,
            isChownFailure_ok, isChownFailure_os]
      · simp [write_other, hA, hm, isChownEvent_mknod, isChownFailure_os]
    · by_cases hB : S_IFMT st.mode = S_IFSOCK
      · cases hb : env CallKind.bindK
        · cases hg : fsGet fs (full_path base path)
          · cases hc : env CallKind.chmodK <;>
              simp [write_other, hA, hB, hb, hg, hc, fixup_owners_false,
                S_IFCHR, S_IFBLK, S_IFIFO, S_IFSOCK, isChownEvent_bind,
                isChownEvent_close, isChownEvent_chmod, isChownFailure_ok,
                isChownFailure_os]
          · simp [write_other, hA, hB, hb, hg, S_IFCHR, S_IFBLK, S_IFIFO,
              S_IFSOCK, isChownEvent_bind, isChownFailure_os]
        · simp [write_other, hA, hB, hb, S_IFCHR, S_IFBLK, S_IFIFO, S_IFSOCK,
            isChownEvent_bind, isChownFailure_os]
      · simp [write_other, hA, hB, isChownFailure_unsupported]

end Dirdiff
